import Mathlib

/-!
Verification development for the boxing-match simulation engine
(`engine.py` of the simple_sports_boxing repository).

The engine is a round-based stochastic simulation.  We embed it shallowly:

* Python floats are idealised as rationals (`ℚ`); all constants of the
  source are decimal and hence exact in `ℚ`.
* The pseudo-random source (`random.Random(seed)`) is modelled as an
  explicit stream `ℕ → ℚ` of draws in `[0,1)`: the `i`-th call of
  `rng.random()` in the source's execution order reads index `i`.  The
  stream is a deterministic function of the seed in the source, so the
  engine is a pure function of fighters, round count and stream.
* `math.exp` is transcendental, so the sigmoid used in the hit-chance
  formula is kept as an explicit function parameter `sig : ℚ → ℚ`.  The
  source clamps the sigmoid's output into `[0.15, 0.75]` before use, and
  we prove (`simulate_fight_sig_irrel`) that whenever every draw of the
  stream lies outside the window `[0.15, 0.75)` the whole simulation is
  independent of `sig`; concrete evaluations below use such streams
  together with the surrogate `sigApprox`.
* Python dictionaries of fixed shape become structures; the presence or
  absence of the `"totals"` key in the returned dictionary is an
  `Option Totals` field.
* `int(x)` truncation and `round(x, 2)` (round-half-to-even) are modelled
  exactly by `pyInt` and `round2`.
-/

/-- The `Fighter` dataclass of `engine.py` (six 0-100 integer attributes). -/
structure Fighter where
  boxer_id : ℤ
  name : String
  speed : ℤ
  accuracy : ℤ
  power : ℤ
  defense : ℤ
  stamina : ℤ
  durability : ℤ
deriving DecidableEq

/-- Helper `_pct`: map 0..100 to 0.0..1.0 with clamping. -/
def pct (x : ℤ) : ℚ := max 0 (min 1 ((x : ℚ) / 100))

/-- Python `int(...)` truncation toward zero, on exact rationals. -/
def pyInt (x : ℚ) : ℤ := if x < 0 then Int.ceil x else Int.floor x

/-- Python `round` to an integer: round half to even. -/
def pyRound (x : ℚ) : ℤ :=
  if x - Int.floor x < 0.5 then Int.floor x
  else if 0.5 < x - Int.floor x then Int.floor x + 1
  else if Int.floor x % 2 = 0 then Int.floor x else Int.floor x + 1

/-- Python `round(x, 2)`. -/
def round2 (x : ℚ) : ℚ := (pyRound (100 * x) : ℚ) / 100

-- Tuning knobs (the `TUNE` dictionary of `engine.py`).
def KD_BASE : ℚ := 0.0004
def KD_POW : ℚ := 0.0010
def KD_STACK : ℚ := 0.0005
def KO_BASE : ℚ := 0.00002
def KO_POW : ℚ := 0.00070
def KO_STACK : ℚ := 0.00040
def MIN_DAMAGE_FOR_KO : ℚ := 110.0
def TKO_AFTER_KD_MULT : ℚ := 0.95
def BETWEEN_ROUNDS_TKO_MULT_BASE : ℚ := 0.98
def BETWEEN_ROUNDS_TKO_MULT_JIT : ℚ := 0.06
def KD_BONUS_MIN : ℚ := 2.0
def KD_BONUS_PER_POW : ℚ := 2.5
def EARLY_KO_REDUCER : List ℚ :=
  [0.35, 0.55, 0.75, 0.90, 1.0, 1.0, 1.0, 1.0, 1.0, 1.0, 1.0, 1.0]
def RECOVERY_BASE : ℚ := 0.015
def RECOVERY_PER_STA : ℚ := 0.035

/-- Per-fighter KO/TKO threshold, `350.0 * (1.0 - dur) + 300.0` in
`simulate_fight` (the source comment reads "durability reduces threshold"). -/
def ko_threshold (dur : ℚ) : ℚ := 350.0 * (1.0 - dur) + 300.0

/-- The knockdown adjustment and margin-softening part of `_score_round`
(source lines 79-91), applied to the base pair: sequential reassignments of
the source become the chain `b1, a1, b2, a2`. -/
def kd_adjust (kd_a kd_b : ℕ) (ab : ℤ × ℤ) : ℤ × ℤ :=
  let b1 : ℤ := if 1 ≤ kd_a ∧ ab.2 ≤ ab.1 then max 7 (ab.2 - (kd_a : ℤ)) else ab.2
  let a1 : ℤ := if 1 ≤ kd_b ∧ ab.1 ≤ b1 then max 7 (ab.1 - (kd_b : ℤ)) else ab.1
  let b2 : ℤ := if 1 ≤ kd_a ∧ a1 < b1 then max 9 b1 else b1
  let a2 : ℤ := if 1 ≤ kd_b ∧ b2 < a1 then max 9 a1 else a1
  (a2, b2)

/-- Function `_score_round` of `engine.py`: one judge's `(a_points, b_points)` for a
single round.  `kd_a` is the number of knockdowns scored BY fighter A in the
round (so it penalises B's score), and symmetrically for `kd_b`. -/
def score_round (landed_a landed_b : ℕ) (kd_a kd_b : ℕ) (judge_bias : ℚ) : ℤ × ℤ :=
  kd_adjust kd_a kd_b
    (if 0.5 < ((landed_a : ℚ) - (landed_b : ℚ)) + judge_bias then (10, 9)
     else if ((landed_a : ℚ) - (landed_b : ℚ)) + judge_bias < -0.5 then (9, 10)
     else (10, 10))

/-- The `{"boxer_id": ..., "name": ...}` winner/loser reference dicts. -/
structure WinnerRef where
  boxer_id : ℤ
  name : String
deriving DecidableEq

/-- The `"totals"` sub-dictionary of a Decision result. -/
structure Totals where
  damage_to_a : ℚ
  damage_to_b : ℚ
  kd_suffered_a : ℕ
  kd_suffered_b : ℕ
  fatigue_a : ℚ
  fatigue_b : ℚ
deriving DecidableEq

/-- One entry of the play-by-play list: either a completed-round record or the
`{"round": rnd, "stoppage": True, "notes": ...}` record of `_result_tko` and
`_result_ko`. -/
inductive RoundRecord where
  | round (rnd landed_a landed_b kd_a kd_b : ℕ) (notes : List String)
  | stoppage (rnd : ℕ) (notes : List String)
deriving DecidableEq

/-- The `"result"` sub-dictionary: outcome kind with its data. -/
inductive ResultType where
  | Decision (verdict : String) (cards : List String)
  | TKO (rnd : ℕ)
  | KO (rnd : ℕ)
deriving DecidableEq

/-- The dictionary returned by `simulate_fight` / `_result_tko` / `_result_ko`.
`totals` is an `Option` because the TKO and KO result builders do not put a
`"totals"` key into their dictionaries. -/
structure FightResult where
  result : ResultType
  winner : Option WinnerRef
  loser : Option WinnerRef
  totals : Option Totals
  play_by_play : List RoundRecord
deriving DecidableEq

/-- Builder `_result_tko` of `engine.py`.  The `landed/kd/judges` parameters are passed
by the source but unused by it; the `rng` parameter is dropped. -/
def result_tko (winner loser : Fighter) (rnd : ℕ) (pbp : List RoundRecord)
    (landed_a landed_b kd_a kd_b : ℕ) (judges : (ℤ × ℤ) × (ℤ × ℤ) × (ℤ × ℤ))
    (notes : List String) : FightResult :=
  { result := .TKO rnd
    winner := some ⟨winner.boxer_id, winner.name⟩
    loser := some ⟨loser.boxer_id, loser.name⟩
    totals := none
    play_by_play := pbp ++ [.stoppage rnd
      (notes ++ ["Referee stops the fight. " ++ winner.name ++ " wins by TKO."])] }

/-- Builder `_result_ko` of `engine.py`, like `_result_tko`. -/
def result_ko (winner loser : Fighter) (rnd : ℕ) (pbp : List RoundRecord)
    (landed_a landed_b kd_a kd_b : ℕ) (judges : (ℤ × ℤ) × (ℤ × ℤ) × (ℤ × ℤ))
    (notes : List String) : FightResult :=
  { result := .KO rnd
    winner := some ⟨winner.boxer_id, winner.name⟩
    loser := some ⟨loser.boxer_id, loser.name⟩
    totals := none
    play_by_play := pbp ++ [.stoppage rnd (notes ++ [winner.name ++ " wins by KO!"])] }

/-- Per-bout context: the sigmoid, the random stream, the fighters, their
normalised ratings and the two stoppage thresholds, all computed once at the
top of `simulate_fight`. -/
structure Ctx where
  stream : ℕ → ℚ
  a : Fighter
  b : Fighter
  spd_a : ℚ
  acc_a : ℚ
  pow_a : ℚ
  def_a : ℚ
  sta_a : ℚ
  spd_b : ℚ
  acc_b : ℚ
  pow_b : ℚ
  def_b : ℚ
  sta_b : ℚ
  ko_threshold_a : ℚ
  ko_threshold_b : ℚ

/-- Mutable engine state across rounds: next stream index, accumulated damage,
fatigue, knockdowns suffered, the three judges' running totals and the
play-by-play list. -/
structure St where
  k : ℕ
  damage_a : ℚ
  damage_b : ℚ
  fatigue_a : ℚ
  fatigue_b : ℚ
  kd_total_a : ℕ
  kd_total_b : ℕ
  j1 : ℤ × ℤ
  j2 : ℤ × ℤ
  j3 : ℤ × ℤ
  pbp : List RoundRecord
deriving DecidableEq

/-- Per-round accumulators (`landed_a`, `landed_b`, `kd_a`, `kd_b`, `notes`). -/
structure RoundAcc where
  landed_a : ℕ
  landed_b : ℕ
  kd_a : ℕ
  kd_b : ℕ
  notes : List String
deriving DecidableEq

/-- Outcome of one punch exchange (or of the exchange loop): either the match
goes on with updated state, or a terminal KO/TKO result was returned. -/
inductive ExchOut where
  | next (st : St) (racc : RoundAcc)
  | stop (r : FightResult)
deriving DecidableEq

/-- Outcome of one full round. -/
inductive RoundOut where
  | next (st : St)
  | stop (r : FightResult)
deriving DecidableEq

/-- The attacker-selection probability `a_att_prob` of the exchange loop,
with the `1e-9` epsilon in the denominator. -/
def attProbA (spd_a fat_a sta_a spd_b fat_b sta_b : ℚ) : ℚ :=
  (spd_a * (1.0 - fat_a) + sta_a * 0.5) /
    ((spd_a * (1.0 - fat_a) + sta_a * 0.5) +
     (spd_b * (1.0 - fat_b) + sta_b * 0.5) + 0.000000001)

/-- The clamped sigmoid hit chance of the exchange loop. -/
def hitChance (sig : ℚ → ℚ) (acc_att def_def sta_att fat_att fat_def : ℚ) : ℚ :=
  max 0.15 (min 0.75
    (sig (2.25 * ((acc_att - def_def) + 0.15 * (sta_att - fat_att) - 0.10 * fat_def))))

/-- One punch exchange: body of the `for _ in range(total_attempts)` loop of
`simulate_fight`, with the source's early `return`s as `.stop`. -/
def exchStep (sig : ℚ → ℚ) (c : Ctx) (rnd : ℕ) (st : St) (racc : RoundAcc) : ExchOut :=
  if c.stream st.k < attProbA c.spd_a st.fatigue_a c.sta_a c.spd_b st.fatigue_b c.sta_b then
    -- A attacks
    if c.stream (st.k + 1) < hitChance sig c.acc_a c.def_b c.sta_a st.fatigue_a st.fatigue_b then
      let racc1 : RoundAcc := { racc with landed_a := racc.landed_a + 1 }
      let dmg : ℚ := max 0.5 ((3.0 + 9.0 * c.pow_a * (0.6 + 0.8 * c.stream (st.k + 2)) - 2.0 * c.def_b) *
        ((1.0 + 0.15 * (1.0 - st.fatigue_a)) * (0.95 + 0.10 * c.stream (st.k + 3))))
      let db : ℚ := st.damage_b + dmg
      if c.stream (st.k + 4) < KD_BASE + KD_POW * c.pow_a + KD_STACK * max 0.0 ((db - 85.0) / 85.0) then
        let racc2 : RoundAcc := { racc1 with
          kd_a := racc1.kd_a + 1
          notes := racc1.notes ++ [c.a.name ++ " scores a knockdown!"] }
        let db2 : ℚ := db + (KD_BONUS_MIN + KD_BONUS_PER_POW * c.pow_a)
        if c.ko_threshold_b * (TKO_AFTER_KD_MULT + 0.05 * c.stream (st.k + 5)) < db2 then
          .stop (result_tko c.a c.b rnd st.pbp racc2.landed_a racc2.landed_b racc2.kd_a racc2.kd_b
            (st.j1, st.j2, st.j3) racc2.notes)
        else if MIN_DAMAGE_FOR_KO ≤ db2 then
          if c.stream (st.k + 6) < EARLY_KO_REDUCER.getD (min (rnd - 1) 11) 1.0 *
              (KO_BASE + KO_POW * c.pow_a + KO_STACK * max 0.0 ((db2 - 120.0) / 80.0)) then
            .stop (result_ko c.a c.b rnd st.pbp racc2.landed_a racc2.landed_b racc2.kd_a racc2.kd_b
              (st.j1, st.j2, st.j3) (racc2.notes ++ [c.a.name ++ " scores a knockout blow!"]))
          else
            .next { st with k := st.k + 7, damage_b := db2, kd_total_b := st.kd_total_b + 1 } racc2
        else
          .next { st with k := st.k + 6, damage_b := db2, kd_total_b := st.kd_total_b + 1 } racc2
      else if MIN_DAMAGE_FOR_KO ≤ db then
        if c.stream (st.k + 5) < EARLY_KO_REDUCER.getD (min (rnd - 1) 11) 1.0 *
            (KO_BASE + KO_POW * c.pow_a + KO_STACK * max 0.0 ((db - 120.0) / 80.0)) then
          .stop (result_ko c.a c.b rnd st.pbp racc1.landed_a racc1.landed_b racc1.kd_a racc1.kd_b
            (st.j1, st.j2, st.j3) (racc1.notes ++ [c.a.name ++ " scores a knockout blow!"]))
        else
          .next { st with k := st.k + 6, damage_b := db } racc1
      else
        .next { st with k := st.k + 5, damage_b := db } racc1
    else
      .next { st with k := st.k + 2 } racc
  else
    -- B attacks
    if c.stream (st.k + 1) < hitChance sig c.acc_b c.def_a c.sta_b st.fatigue_b st.fatigue_a then
      let racc1 : RoundAcc := { racc with landed_b := racc.landed_b + 1 }
      let dmg : ℚ := max 0.5 ((3.0 + 9.0 * c.pow_b * (0.6 + 0.8 * c.stream (st.k + 2)) - 2.0 * c.def_a) *
        ((1.0 + 0.15 * (1.0 - st.fatigue_b)) * (0.95 + 0.10 * c.stream (st.k + 3))))
      let da : ℚ := st.damage_a + dmg
      if c.stream (st.k + 4) < KD_BASE + KD_POW * c.pow_b + KD_STACK * max 0.0 ((da - 85.0) / 85.0) then
        let racc2 : RoundAcc := { racc1 with
          kd_b := racc1.kd_b + 1
          notes := racc1.notes ++ [c.b.name ++ " scores a knockdown!"] }
        let da2 : ℚ := da + (KD_BONUS_MIN + KD_BONUS_PER_POW * c.pow_b)
        if c.ko_threshold_a * (TKO_AFTER_KD_MULT + 0.05 * c.stream (st.k + 5)) < da2 then
          .stop (result_tko c.b c.a rnd st.pbp racc2.landed_a racc2.landed_b racc2.kd_a racc2.kd_b
            (st.j1, st.j2, st.j3) racc2.notes)
        else if MIN_DAMAGE_FOR_KO ≤ da2 then
          if c.stream (st.k + 6) < EARLY_KO_REDUCER.getD (min (rnd - 1) 11) 1.0 *
              (KO_BASE + KO_POW * c.pow_b + KO_STACK * max 0.0 ((da2 - 120.0) / 80.0)) then
            .stop (result_ko c.b c.a rnd st.pbp racc2.landed_a racc2.landed_b racc2.kd_a racc2.kd_b
              (st.j1, st.j2, st.j3) (racc2.notes ++ [c.b.name ++ " scores a knockout blow!"]))
          else
            .next { st with k := st.k + 7, damage_a := da2, kd_total_a := st.kd_total_a + 1 } racc2
        else
          .next { st with k := st.k + 6, damage_a := da2, kd_total_a := st.kd_total_a + 1 } racc2
      else if MIN_DAMAGE_FOR_KO ≤ da then
        if c.stream (st.k + 5) < EARLY_KO_REDUCER.getD (min (rnd - 1) 11) 1.0 *
            (KO_BASE + KO_POW * c.pow_b + KO_STACK * max 0.0 ((da - 120.0) / 80.0)) then
          .stop (result_ko c.b c.a rnd st.pbp racc1.landed_a racc1.landed_b racc1.kd_a racc1.kd_b
            (st.j1, st.j2, st.j3) (racc1.notes ++ [c.b.name ++ " scores a knockout blow!"]))
        else
          .next { st with k := st.k + 6, damage_a := da } racc1
      else
        .next { st with k := st.k + 5, damage_a := da } racc1
    else
      .next { st with k := st.k + 2 } racc

/-- The exchange loop, `total_attempts` iterations of `exchStep` unless a
terminal result stops it early. -/
def exchLoop (sig : ℚ → ℚ) (c : Ctx) (rnd : ℕ) : ℕ → St → RoundAcc → ExchOut
  | 0, st, racc => .next st racc
  | n + 1, st, racc =>
    match exchStep sig c rnd st racc with
    | .stop r => .stop r
    | .next st2 racc2 => exchLoop sig c rnd n st2 racc2

/-- Total number of exchanges of one round, `attempts_a + attempts_b` (each
attempt count floored at 10). -/
def attemptsTotal (c : Ctx) (st : St) : ℕ :=
  let base_exchange : ℤ := 48 + pyInt (32 * (c.spd_a + c.spd_b) / 2)
  let attempts_a : ℤ := max 10 (pyInt ((base_exchange : ℚ) * (0.50 + 0.5 * c.spd_a) *
    (0.65 + 0.35 * c.sta_a) * (1.0 - 0.35 * st.fatigue_a)))
  let attempts_b : ℤ := max 10 (pyInt ((base_exchange : ℚ) * (0.50 + 0.5 * c.spd_b) *
    (0.65 + 0.35 * c.sta_b) * (1.0 - 0.35 * st.fatigue_b)))
  (attempts_a + attempts_b).toNat

/-- The tail of one round after the exchange loop: the two between-round
corner-stoppage checks, the three judges' scoring of the round, the
play-by-play record and the between-round fatigue recovery. -/
def runRoundAfter (c : Ctx) (rnd : ℕ) : ExchOut → RoundOut
  | .stop r => .stop r
  | .next st1 racc =>
    if c.ko_threshold_a * (BETWEEN_ROUNDS_TKO_MULT_BASE +
        BETWEEN_ROUNDS_TKO_MULT_JIT * c.stream st1.k) < st1.damage_a then
      .stop (result_tko c.b c.a rnd st1.pbp racc.landed_a racc.landed_b racc.kd_a racc.kd_b
        (st1.j1, st1.j2, st1.j3) (racc.notes ++ ["Corner stops it for " ++ c.a.name ++ "."]))
    else if c.ko_threshold_b * (BETWEEN_ROUNDS_TKO_MULT_BASE +
        BETWEEN_ROUNDS_TKO_MULT_JIT * c.stream (st1.k + 1)) < st1.damage_b then
      .stop (result_tko c.a c.b rnd st1.pbp racc.landed_a racc.landed_b racc.kd_a racc.kd_b
        (st1.j1, st1.j2, st1.j3) (racc.notes ++ ["Corner stops it for " ++ c.b.name ++ "."]))
    else
      let p1 := score_round racc.landed_a racc.landed_b racc.kd_a racc.kd_b
        ((c.stream (st1.k + 2) - 0.5) * 0.4)
      let p2 := score_round racc.landed_a racc.landed_b racc.kd_a racc.kd_b
        ((c.stream (st1.k + 3) - 0.5) * 0.4)
      let p3 := score_round racc.landed_a racc.landed_b racc.kd_a racc.kd_b
        ((c.stream (st1.k + 4) - 0.5) * 0.4)
      .next { st1 with
        k := st1.k + 5
        j1 := (st1.j1.1 + p1.1, st1.j1.2 + p1.2)
        j2 := (st1.j2.1 + p2.1, st1.j2.2 + p2.2)
        j3 := (st1.j3.1 + p3.1, st1.j3.2 + p3.2)
        pbp := st1.pbp ++ [.round rnd racc.landed_a racc.landed_b racc.kd_a racc.kd_b racc.notes]
        fatigue_a := max 0.0 (st1.fatigue_a - (RECOVERY_BASE + RECOVERY_PER_STA * c.sta_a))
        fatigue_b := max 0.0 (st1.fatigue_b - (RECOVERY_BASE + RECOVERY_PER_STA * c.sta_b)) }

/-- One round of `simulate_fight`: the exchange loop followed by the round
tail. -/
def runRound (sig : ℚ → ℚ) (c : Ctx) (rnd : ℕ) (st : St) : RoundOut :=
  runRoundAfter c rnd (exchLoop sig c rnd (attemptsTotal c st) st
    { landed_a := 0, landed_b := 0, kd_a := 0, kd_b := 0, notes := [] })

/-- One judge's card string `f"{int(ja)}-{int(jb)}"`. -/
def cardStr (p : ℤ × ℤ) : String := toString p.1 ++ "-" ++ toString p.2

/-- The `"totals"` dictionary built at Decision time. -/
def mkTotals (st : St) : Totals :=
  { damage_to_a := round2 st.damage_a
    damage_to_b := round2 st.damage_b
    kd_suffered_a := st.kd_total_a
    kd_suffered_b := st.kd_total_b
    fatigue_a := round2 st.fatigue_a
    fatigue_b := round2 st.fatigue_b }

/-- The Decision tail of `simulate_fight` (source lines after the round loop):
card strings, card counting, verdict classification and result assembly. -/
def decisionResult (a b : Fighter) (st : St) : FightResult :=
  let js : List (ℤ × ℤ) := [st.j1, st.j2, st.j3]
  let cards : List String := js.map cardStr
  let a_cards : ℕ := js.countP (fun p => decide (p.2 < p.1))
  let b_cards : ℕ := js.countP (fun p => decide (p.1 < p.2))
  if b_cards < a_cards then
    { result := .Decision (if a_cards = 3 then "Unanimous Decision"
        else if b_cards = 1 then "Split Decision" else "Majority Decision") cards
      winner := some ⟨a.boxer_id, a.name⟩
      loser := some ⟨b.boxer_id, b.name⟩
      totals := some (mkTotals st)
      play_by_play := st.pbp }
  else if a_cards < b_cards then
    { result := .Decision (if b_cards = 3 then "Unanimous Decision"
        else if a_cards = 1 then "Split Decision" else "Majority Decision") cards
      winner := some ⟨b.boxer_id, b.name⟩
      loser := some ⟨a.boxer_id, a.name⟩
      totals := some (mkTotals st)
      play_by_play := st.pbp }
  else
    { result := .Decision "Draw" cards
      winner := none
      loser := none
      totals := some (mkTotals st)
      play_by_play := st.pbp }

/-- The round loop `for rnd in range(1, rounds + 1)` with early termination. -/
def roundLoop (sig : ℚ → ℚ) (c : Ctx) : ℕ → ℕ → St → FightResult
  | 0, _, st => decisionResult c.a c.b st
  | n + 1, rnd, st =>
    match runRound sig c rnd st with
    | .stop r => r
    | .next st2 => roundLoop sig c n (rnd + 1) st2

/-- Engine entry point `simulate_fight` of `engine.py`.  Here `sig` stands for `_sigmoid` and `stream`
for the seeded `random.Random(seed)` draw sequence (see the header comment). -/
def simulate_fight (sig : ℚ → ℚ) (stream : ℕ → ℚ) (a b : Fighter) (rounds : ℤ) : FightResult :=
  roundLoop sig
    { stream := stream, a := a, b := b
      spd_a := pct a.speed, acc_a := pct a.accuracy, pow_a := pct a.power
      def_a := pct a.defense, sta_a := pct a.stamina
      spd_b := pct b.speed, acc_b := pct b.accuracy, pow_b := pct b.power
      def_b := pct b.defense, sta_b := pct b.stamina
      ko_threshold_a := ko_threshold (pct a.durability)
      ko_threshold_b := ko_threshold (pct b.durability) }
    rounds.toNat 1
    { k := 0, damage_a := 0, damage_b := 0, fatigue_a := 0.0, fatigue_b := 0.0
      kd_total_a := 0, kd_total_b := 0, j1 := (0, 0), j2 := (0, 0), j3 := (0, 0), pbp := [] }

/-- Computable surrogate for the logistic sigmoid (its tangent at 0, clamped
to `[0,1]`); used only where the simulation provably does not depend on the
sigmoid at all. -/
def sigApprox (x : ℚ) : ℚ := max 0 (min 1 (1/2 + x/4))

/-- Constant stream of draws `0`: every comparison against the clamped hit
chance is a hit, independently of the sigmoid. -/
def str0 : ℕ → ℚ := fun _ => 0

/-- Constant stream of draws `4/5`: every comparison against the clamped hit
chance is a miss, independently of the sigmoid. -/
def str45 : ℕ → ℚ := fun _ => 4/5

def A0 : Fighter := ⟨1, "Ana", 0, 0, 0, 0, 0, 100⟩
def B0 : Fighter := ⟨2, "Bo", 0, 100, 100, 0, 0, 0⟩
def A1 : Fighter := ⟨3, "Cai", 0, 0, 0, 0, 0, 0⟩
def B1 : Fighter := ⟨4, "Dee", 0, 0, 0, 0, 0, 0⟩

/-- A judges configuration with two cards for A and one for B. -/
def stX : St :=
  { k := 0, damage_a := 0, damage_b := 0, fatigue_a := 0, fatigue_b := 0
    kd_total_a := 0, kd_total_b := 0, j1 := (10, 9), j2 := (10, 9), j3 := (9, 10), pbp := [] }

/-- Judge-total bounds after `n` scored rounds. -/
def judgeOk (n : ℕ) (p : ℤ × ℤ) : Prop :=
  7 * (n : ℤ) ≤ p.1 ∧ p.1 ≤ 10 * (n : ℤ) ∧ 7 * (n : ℤ) ≤ p.2 ∧ p.2 ≤ 10 * (n : ℤ)

/-- Bounds of a single judge's single-round score pair. -/
def scoreOk (p : ℤ × ℤ) : Prop := 7 ≤ p.1 ∧ p.1 ≤ 10 ∧ 7 ≤ p.2 ∧ p.2 ≤ 10

/-! ### Basic bounds -/

theorem pct_nonneg (x : ℤ) : 0 ≤ pct x := le_max_left _ _

theorem pct_le_one (x : ℤ) : pct x ≤ 1 :=
  max_le (by norm_num) (min_le_left _ _)

theorem round2_zero : round2 0 = 0 := by
  norm_num [round2, pyRound]

theorem hitChance_ge (sig : ℚ → ℚ) (u v w y z : ℚ) :
    0.15 ≤ hitChance sig u v w y z := le_max_left _ _

theorem hitChance_le (sig : ℚ → ℚ) (u v w y z : ℚ) :
    hitChance sig u v w y z ≤ 0.75 :=
  max_le (by norm_num) (min_le_left _ _)

/-! ### Independence of the sigmoid when all draws miss the clamp window

Each draw compared against the clamped hit chance decides the comparison on
its own when it lies below `0.15` or at/above `0.75`; everything else in the
engine never consults the sigmoid.  -/

theorem exchStep_sig_irrel (sig g : ℚ → ℚ) (c : Ctx) (rnd : ℕ) (st : St) (racc : RoundAcc)
    (h : c.stream (st.k + 1) < 0.15 ∨ 0.75 ≤ c.stream (st.k + 1)) :
    exchStep g c rnd st racc = exchStep sig c rnd st racc := by
  simp only [exchStep]
  by_cases hA : c.stream st.k < attProbA c.spd_a st.fatigue_a c.sta_a c.spd_b st.fatigue_b c.sta_b
  · rw [if_pos hA, if_pos hA]
    rcases h with h | h
    · rw [if_pos (lt_of_lt_of_le h (hitChance_ge _ _ _ _ _ _)),
        if_pos (lt_of_lt_of_le h (hitChance_ge _ _ _ _ _ _))]
    · rw [if_neg (not_lt.mpr (le_trans (hitChance_le _ _ _ _ _ _) h)),
        if_neg (not_lt.mpr (le_trans (hitChance_le _ _ _ _ _ _) h))]
  · rw [if_neg hA, if_neg hA]
    rcases h with h | h
    · rw [if_pos (lt_of_lt_of_le h (hitChance_ge _ _ _ _ _ _)),
        if_pos (lt_of_lt_of_le h (hitChance_ge _ _ _ _ _ _))]
    · rw [if_neg (not_lt.mpr (le_trans (hitChance_le _ _ _ _ _ _) h)),
        if_neg (not_lt.mpr (le_trans (hitChance_le _ _ _ _ _ _) h))]

theorem exchLoop_succ (sig : ℚ → ℚ) (c : Ctx) (rnd n : ℕ) (st : St) (racc : RoundAcc) :
    exchLoop sig c rnd (n + 1) st racc =
      match exchStep sig c rnd st racc with
      | .stop r => .stop r
      | .next st2 racc2 => exchLoop sig c rnd n st2 racc2 := rfl

theorem roundLoop_succ (sig : ℚ → ℚ) (c : Ctx) (n rnd : ℕ) (st : St) :
    roundLoop sig c (n + 1) rnd st =
      match runRound sig c rnd st with
      | .stop r => r
      | .next st2 => roundLoop sig c n (rnd + 1) st2 := rfl

theorem exchLoop_sig_irrel (sig g : ℚ → ℚ) (c : Ctx) (rnd : ℕ)
    (h : ∀ i, c.stream i < 0.15 ∨ 0.75 ≤ c.stream i) :
    ∀ (n : ℕ) (st : St) (racc : RoundAcc),
      exchLoop g c rnd n st racc = exchLoop sig c rnd n st racc := by
  intro n
  induction n with
  | zero => intro st racc; rfl
  | succ n ih =>
    intro st racc
    rw [exchLoop_succ, exchLoop_succ,
      exchStep_sig_irrel sig g c rnd st racc (h (st.k + 1))]
    cases hs : exchStep sig c rnd st racc with
    | stop r => rfl
    | next st2 racc2 => exact ih st2 racc2

theorem runRound_sig_irrel (sig g : ℚ → ℚ) (c : Ctx) (rnd : ℕ) (st : St)
    (h : ∀ i, c.stream i < 0.15 ∨ 0.75 ≤ c.stream i) :
    runRound g c rnd st = runRound sig c rnd st := by
  unfold runRound
  rw [exchLoop_sig_irrel sig g c rnd h]

theorem roundLoop_sig_irrel (sig g : ℚ → ℚ) (c : Ctx)
    (h : ∀ i, c.stream i < 0.15 ∨ 0.75 ≤ c.stream i) :
    ∀ (rem rnd : ℕ) (st : St),
      roundLoop g c rem rnd st = roundLoop sig c rem rnd st := by
  intro rem
  induction rem with
  | zero => intro rnd st; rfl
  | succ n ih =>
    intro rnd st
    rw [roundLoop_succ, roundLoop_succ, runRound_sig_irrel sig g c rnd st h]
    cases hs : runRound sig c rnd st with
    | stop r => rfl
    | next st2 => exact ih (rnd + 1) st2

theorem simulate_fight_sig_irrel (sig g : ℚ → ℚ) (stream : ℕ → ℚ) (a b : Fighter) (rounds : ℤ)
    (h : ∀ i, stream i < 0.15 ∨ 0.75 ≤ stream i) :
    simulate_fight g stream a b rounds = simulate_fight sig stream a b rounds := by
  simp only [simulate_fight]
  exact roundLoop_sig_irrel sig g
    { stream := stream, a := a, b := b
      spd_a := pct a.speed, acc_a := pct a.accuracy, pow_a := pct a.power
      def_a := pct a.defense, sta_a := pct a.stamina
      spd_b := pct b.speed, acc_b := pct b.accuracy, pow_b := pct b.power
      def_b := pct b.defense, sta_b := pct b.stamina
      ko_threshold_a := ko_threshold (pct a.durability)
      ko_threshold_b := ko_threshold (pct b.durability) }
    h rounds.toNat 1 _

/-! ### Judge scoring bounds -/

theorem kd_adjust_scoreOk (ka kb : ℕ) (ab : ℤ × ℤ)
    (h1 : 9 ≤ ab.1) (h2 : ab.1 ≤ 10) (h3 : 9 ≤ ab.2) (h4 : ab.2 ≤ 10) :
    scoreOk (kd_adjust ka kb ab) := by
  simp only [kd_adjust, scoreOk]
  split_ifs <;> refine ⟨?_, ?_, ?_, ?_⟩ <;> omega

theorem base_cases (m : ℚ) :
    (if 0.5 < m then ((10:ℤ), (9:ℤ)) else if m < -0.5 then (9, 10) else (10, 10)) = (10, 9) ∨
    (if 0.5 < m then ((10:ℤ), (9:ℤ)) else if m < -0.5 then (9, 10) else (10, 10)) = (9, 10) ∨
    (if 0.5 < m then ((10:ℤ), (9:ℤ)) else if m < -0.5 then (9, 10) else (10, 10)) = (10, 10) := by
  split_ifs <;> tauto

theorem base_of_not_lt (m : ℚ) (hm : ¬(m < -0.5)) :
    (if 0.5 < m then ((10:ℤ), (9:ℤ)) else if m < -0.5 then (9, 10) else (10, 10)) = (10, 9) ∨
    (if 0.5 < m then ((10:ℤ), (9:ℤ)) else if m < -0.5 then (9, 10) else (10, 10)) = (10, 10) := by
  split_ifs <;> tauto

theorem base_of_not_gt (m : ℚ) (hm : ¬(0.5 < m)) :
    (if 0.5 < m then ((10:ℤ), (9:ℤ)) else if m < -0.5 then (9, 10) else (10, 10)) = (9, 10) ∨
    (if 0.5 < m then ((10:ℤ), (9:ℤ)) else if m < -0.5 then (9, 10) else (10, 10)) = (10, 10) := by
  split_ifs <;> tauto

theorem score_round_scoreOk (la lb ka kb : ℕ) (bias : ℚ) :
    scoreOk (score_round la lb ka kb bias) := by
  unfold score_round
  rcases base_cases (((la : ℚ) - (lb : ℚ)) + bias) with h | h | h <;>
    rw [h] <;> apply kd_adjust_scoreOk <;> norm_num

theorem kd_adjust_b_le (ka kb : ℕ) (ab : ℤ × ℤ) (hk : 1 ≤ ka) (hba : ab.2 ≤ ab.1)
    (h2 : ab.1 ≤ 10) (h3 : 9 ≤ ab.2) :
    (kd_adjust ka kb ab).2 ≤ max 7 (10 - (ka : ℤ)) := by
  simp only [kd_adjust]
  split_ifs <;> omega

theorem kd_adjust_a_le (kb : ℕ) (ab : ℤ × ℤ) (hk : 1 ≤ kb) (hab : ab.1 ≤ ab.2)
    (h2 : ab.2 ≤ 10) (h3 : 9 ≤ ab.1) :
    (kd_adjust 0 kb ab).1 ≤ max 7 (10 - (kb : ℤ)) := by
  simp only [kd_adjust]
  split_ifs <;> omega

/-! ### Structural invariants of the exchange loop -/

theorem exchStep_next_inv (sig : ℚ → ℚ) (c : Ctx) (rnd : ℕ) (st : St) (racc : RoundAcc)
    (st2 : St) (racc2 : RoundAcc) (h : exchStep sig c rnd st racc = .next st2 racc2) :
    st2.pbp = st.pbp ∧ st2.fatigue_a = st.fatigue_a ∧ st2.fatigue_b = st.fatigue_b ∧
    st2.j1 = st.j1 ∧ st2.j2 = st.j2 ∧ st2.j3 = st.j3 := by
  simp only [exchStep] at h
  split_ifs at h <;>
    first
      | exact ExchOut.noConfusion h
      | (injection h with h1 h2; subst h1; exact ⟨rfl, rfl, rfl, rfl, rfl, rfl⟩)

theorem exchStep_stop_shape (sig : ℚ → ℚ) (c : Ctx) (rnd : ℕ) (st : St) (racc : RoundAcc)
    (r : FightResult) (h : exchStep sig c rnd st racc = .stop r) :
    r.totals = none ∧ (∃ ns, r.play_by_play = st.pbp ++ [.stoppage rnd ns]) ∧
    (r.result = .TKO rnd ∨ r.result = .KO rnd) := by
  simp only [exchStep] at h
  split_ifs at h <;>
    first
      | exact ExchOut.noConfusion h
      | (injection h with h1; subst h1;
         exact ⟨rfl, ⟨_, rfl⟩, Or.inl rfl⟩)
      | (injection h with h1; subst h1;
         exact ⟨rfl, ⟨_, rfl⟩, Or.inr rfl⟩)

theorem exchLoop_next_inv (sig : ℚ → ℚ) (c : Ctx) (rnd : ℕ) :
    ∀ (n : ℕ) (st : St) (racc : RoundAcc) (st2 : St) (racc2 : RoundAcc),
      exchLoop sig c rnd n st racc = .next st2 racc2 →
      st2.pbp = st.pbp ∧ st2.fatigue_a = st.fatigue_a ∧ st2.fatigue_b = st.fatigue_b ∧
      st2.j1 = st.j1 ∧ st2.j2 = st.j2 ∧ st2.j3 = st.j3 := by
  intro n
  induction n with
  | zero =>
    intro st racc st2 racc2 h
    injection h with h1 h2
    subst h1
    exact ⟨rfl, rfl, rfl, rfl, rfl, rfl⟩
  | succ n ih =>
    intro st racc st2 racc2 h
    rw [exchLoop_succ] at h
    cases hs : exchStep sig c rnd st racc with
    | stop r =>
      rw [hs] at h
      exact ExchOut.noConfusion h
    | next st3 racc3 =>
      rw [hs] at h
      have h2 : exchLoop sig c rnd n st3 racc3 = .next st2 racc2 := h
      obtain ⟨p1, p2, p3, p4, p5, p6⟩ := ih st3 racc3 st2 racc2 h2
      obtain ⟨q1, q2, q3, q4, q5, q6⟩ := exchStep_next_inv sig c rnd st racc st3 racc3 hs
      exact ⟨p1.trans q1, p2.trans q2, p3.trans q3, p4.trans q4, p5.trans q5, p6.trans q6⟩

theorem exchLoop_stop_shape (sig : ℚ → ℚ) (c : Ctx) (rnd : ℕ) :
    ∀ (n : ℕ) (st : St) (racc : RoundAcc) (r : FightResult),
      exchLoop sig c rnd n st racc = .stop r →
      r.totals = none ∧ (∃ ns, r.play_by_play = st.pbp ++ [.stoppage rnd ns]) ∧
      (r.result = .TKO rnd ∨ r.result = .KO rnd) := by
  intro n
  induction n with
  | zero => intro st racc r h; exact ExchOut.noConfusion h
  | succ n ih =>
    intro st racc r h
    rw [exchLoop_succ] at h
    cases hs : exchStep sig c rnd st racc with
    | stop r2 =>
      rw [hs] at h
      have h2 : ExchOut.stop r2 = ExchOut.stop r := h
      injection h2 with h3
      subst h3
      exact exchStep_stop_shape sig c rnd st racc _ hs
    | next st3 racc3 =>
      rw [hs] at h
      have h2 : exchLoop sig c rnd n st3 racc3 = .stop r := h
      obtain ⟨p1, p2, p3⟩ := ih st3 racc3 r h2
      obtain ⟨q1, q2, q3, q4, q5, q6⟩ := exchStep_next_inv sig c rnd st racc st3 racc3 hs
      refine ⟨p1, ?_, p3⟩
      obtain ⟨ns, hns⟩ := p2
      exact ⟨ns, by rw [hns, q1]⟩

/-! ### Per-round invariants -/

theorem runRound_stop_spec (sig : ℚ → ℚ) (c : Ctx) (rnd : ℕ) (st : St) (r : FightResult)
    (h : runRound sig c rnd st = .stop r) :
    r.totals = none ∧ (∃ ns, r.play_by_play = st.pbp ++ [.stoppage rnd ns]) ∧
    (r.result = .TKO rnd ∨ r.result = .KO rnd) := by
  unfold runRound at h
  cases hx : exchLoop sig c rnd (attemptsTotal c st) st
      { landed_a := 0, landed_b := 0, kd_a := 0, kd_b := 0, notes := [] } with
  | stop r2 =>
    rw [hx] at h
    have h2 : RoundOut.stop r2 = RoundOut.stop r := h
    injection h2 with h3
    subst h3
    exact exchLoop_stop_shape sig c rnd _ st _ _ hx
  | next st1 racc =>
    rw [hx] at h
    obtain ⟨q1, q2, q3, q4, q5, q6⟩ := exchLoop_next_inv sig c rnd _ st _ st1 racc hx
    simp only [runRoundAfter] at h
    split_ifs at h
    all_goals
      (injection h with h1
       subst h1
       refine ⟨rfl, ?_, Or.inl rfl⟩
       rw [← q1]
       exact ⟨_, rfl⟩)

theorem runRound_next_spec (sig : ℚ → ℚ) (c : Ctx) (rnd : ℕ) (st : St) (st2 : St)
    (hsa : 0 ≤ c.sta_a) (hsb : 0 ≤ c.sta_b)
    (h : runRound sig c rnd st = .next st2) :
    st2.pbp.length = st.pbp.length + 1 ∧
    (st.fatigue_a = 0 → st2.fatigue_a = 0) ∧
    (st.fatigue_b = 0 → st2.fatigue_b = 0) ∧
    (∃ q1 q2 q3, scoreOk q1 ∧ scoreOk q2 ∧ scoreOk q3 ∧
      st2.j1 = (st.j1.1 + q1.1, st.j1.2 + q1.2) ∧
      st2.j2 = (st.j2.1 + q2.1, st.j2.2 + q2.2) ∧
      st2.j3 = (st.j3.1 + q3.1, st.j3.2 + q3.2)) := by
  unfold runRound at h
  cases hx : exchLoop sig c rnd (attemptsTotal c st) st
      { landed_a := 0, landed_b := 0, kd_a := 0, kd_b := 0, notes := [] } with
  | stop r =>
    rw [hx] at h
    exact RoundOut.noConfusion h
  | next st1 racc =>
    rw [hx] at h
    obtain ⟨q1, q2, q3, q4, q5, q6⟩ := exchLoop_next_inv sig c rnd _ st _ st1 racc hx
    simp only [runRoundAfter] at h
    split_ifs at h
    all_goals
      injection h with h1
    all_goals
      subst h1
      have hra : (0:ℚ) ≤ RECOVERY_BASE + RECOVERY_PER_STA * c.sta_a := by
        have h5 : (0:ℚ) ≤ RECOVERY_PER_STA * c.sta_a :=
          mul_nonneg (by norm_num [RECOVERY_PER_STA]) hsa
        have h6 : (0:ℚ) ≤ RECOVERY_BASE := by norm_num [RECOVERY_BASE]
        linarith
      have hrb : (0:ℚ) ≤ RECOVERY_BASE + RECOVERY_PER_STA * c.sta_b := by
        have h5 : (0:ℚ) ≤ RECOVERY_PER_STA * c.sta_b :=
          mul_nonneg (by norm_num [RECOVERY_PER_STA]) hsb
        have h6 : (0:ℚ) ≤ RECOVERY_BASE := by norm_num [RECOVERY_BASE]
        linarith
      refine ⟨?_, ?_, ?_, ?_⟩
      · show (st1.pbp ++ [_]).length = st.pbp.length + 1
        rw [List.length_append, q1]
        rfl
      · intro hf
        show max 0.0 (st1.fatigue_a - (RECOVERY_BASE + RECOVERY_PER_STA * c.sta_a)) = 0
        rw [q2, hf, show (0.0:ℚ) = 0 from by norm_num]
        apply max_eq_left
        linarith
      · intro hf
        show max 0.0 (st1.fatigue_b - (RECOVERY_BASE + RECOVERY_PER_STA * c.sta_b)) = 0
        rw [q3, hf, show (0.0:ℚ) = 0 from by norm_num]
        apply max_eq_left
        linarith
      · refine ⟨score_round racc.landed_a racc.landed_b racc.kd_a racc.kd_b
            ((c.stream (st1.k + 2) - 0.5) * 0.4),
          score_round racc.landed_a racc.landed_b racc.kd_a racc.kd_b
            ((c.stream (st1.k + 3) - 0.5) * 0.4),
          score_round racc.landed_a racc.landed_b racc.kd_a racc.kd_b
            ((c.stream (st1.k + 4) - 0.5) * 0.4),
          score_round_scoreOk _ _ _ _ _, score_round_scoreOk _ _ _ _ _,
          score_round_scoreOk _ _ _ _ _, ?_, ?_, ?_⟩
        · show (st1.j1.1 + _, st1.j1.2 + _) = _
          rw [q4]
        · show (st1.j2.1 + _, st1.j2.2 + _) = _
          rw [q5]
        · show (st1.j3.1 + _, st1.j3.2 + _) = _
          rw [q6]

/-! ### The Decision tail and the master round-loop invariant -/

theorem decisionResult_spec (a b : Fighter) (st : St) :
    (decisionResult a b st).play_by_play = st.pbp ∧
    (decisionResult a b st).totals = some (mkTotals st) ∧
    ∃ v, (decisionResult a b st).result =
      .Decision v [cardStr st.j1, cardStr st.j2, cardStr st.j3] := by
  simp only [decisionResult]
  split_ifs <;> exact ⟨rfl, rfl, _, rfl⟩

theorem judgeOk_step (n : ℕ) (p q : ℤ × ℤ) (hp : judgeOk n p) (hq : scoreOk q) :
    judgeOk (n + 1) (p.1 + q.1, p.2 + q.2) := by
  obtain ⟨a1, a2, a3, a4⟩ := hp
  obtain ⟨b1, b2, b3, b4⟩ := hq
  refine ⟨?_, ?_, ?_, ?_⟩ <;> push_cast <;> omega

theorem mkTotals_fatigue (st : St) (hfa : st.fatigue_a = 0) (hfb : st.fatigue_b = 0) :
    (mkTotals st).fatigue_a = 0 ∧ (mkTotals st).fatigue_b = 0 := by
  unfold mkTotals
  rw [hfa, hfb, round2_zero]
  exact ⟨rfl, rfl⟩

theorem roundLoop_spec (sig : ℚ → ℚ) (c : Ctx) (hsa : 0 ≤ c.sta_a) (hsb : 0 ≤ c.sta_b) :
    ∀ (rem done : ℕ) (st : St),
      st.pbp.length = done →
      st.fatigue_a = 0 → st.fatigue_b = 0 →
      judgeOk done st.j1 → judgeOk done st.j2 → judgeOk done st.j3 →
      (∀ v cs, (roundLoop sig c rem (done + 1) st).result = .Decision v cs →
          (roundLoop sig c rem (done + 1) st).play_by_play.length = done + rem ∧
          (∃ t, (roundLoop sig c rem (done + 1) st).totals = some t ∧
            t.fatigue_a = 0 ∧ t.fatigue_b = 0) ∧
          (∃ p1 p2 p3, judgeOk (done + rem) p1 ∧ judgeOk (done + rem) p2 ∧
            judgeOk (done + rem) p3 ∧ cs = [cardStr p1, cardStr p2, cardStr p3])) ∧
      (∀ m, ((roundLoop sig c rem (done + 1) st).result = .TKO m ∨
             (roundLoop sig c rem (done + 1) st).result = .KO m) →
          (roundLoop sig c rem (done + 1) st).totals = none ∧
          (roundLoop sig c rem (done + 1) st).play_by_play.length = m ∧
          done + 1 ≤ m ∧ m ≤ done + rem) := by
  intro rem
  induction rem with
  | zero =>
    intro done st hlen hfa hfb hj1 hj2 hj3
    have h0 : roundLoop sig c 0 (done + 1) st = decisionResult c.a c.b st := rfl
    rw [h0]
    obtain ⟨e1, e2, v0, e3⟩ := decisionResult_spec c.a c.b st
    constructor
    · intro v cs h
      rw [e3] at h
      injection h with hv hcs
      obtain ⟨f1, f2⟩ := mkTotals_fatigue st hfa hfb
      exact ⟨by rw [e1, hlen]; omega, ⟨mkTotals st, e2, f1, f2⟩,
        ⟨st.j1, st.j2, st.j3, by simpa using hj1, by simpa using hj2,
          by simpa using hj3, hcs.symm⟩⟩
    · intro m h
      rcases h with h | h <;> (rw [e3] at h; exact ResultType.noConfusion h)
  | succ n ih =>
    intro done st hlen hfa hfb hj1 hj2 hj3
    cases hr : runRound sig c (done + 1) st with
    | stop r =>
      have h0 : roundLoop sig c (n + 1) (done + 1) st = r := by rw [roundLoop_succ, hr]
      rw [h0]
      obtain ⟨s1, s2, s3⟩ := runRound_stop_spec sig c (done + 1) st r hr
      constructor
      · intro v cs h
        rcases s3 with h4 | h4 <;> (rw [h4] at h; exact ResultType.noConfusion h)
      · intro m h
        obtain ⟨ns, hns⟩ := s2
        have hm : m = done + 1 := by
          rcases s3 with h4 | h4 <;> rcases h with h5 | h5 <;> rw [h4] at h5 <;>
            first
              | (injection h5 with h6; omega)
              | exact ResultType.noConfusion h5
        subst hm
        refine ⟨s1, ?_, le_refl _, by omega⟩
        rw [hns, List.length_append, hlen]
        rfl
    | next st2 =>
      have h0 : roundLoop sig c (n + 1) (done + 1) st = roundLoop sig c n (done + 1 + 1) st2 := by
        rw [roundLoop_succ, hr]
      rw [h0]
      obtain ⟨t1, t2, t3, q1', q2', q3', sOk1, sOk2, sOk3, e1, e2, e3⟩ :=
        runRound_next_spec sig c (done + 1) st st2 hsa hsb hr
      have hlen2 : st2.pbp.length = done + 1 := by rw [t1, hlen]
      have hfa2 : st2.fatigue_a = 0 := t2 hfa
      have hfb2 : st2.fatigue_b = 0 := t3 hfb
      have hj1b : judgeOk (done + 1) st2.j1 := by rw [e1]; exact judgeOk_step done st.j1 q1' hj1 sOk1
      have hj2b : judgeOk (done + 1) st2.j2 := by rw [e2]; exact judgeOk_step done st.j2 q2' hj2 sOk2
      have hj3b : judgeOk (done + 1) st2.j3 := by rw [e3]; exact judgeOk_step done st.j3 q3' hj3 sOk3
      obtain ⟨D, K⟩ := ih (done + 1) st2 hlen2 hfa2 hfb2 hj1b hj2b hj3b
      constructor
      · intro v cs h
        obtain ⟨d1, d2, d3⟩ := D v cs h
        refine ⟨d1.trans (by omega), d2, ?_⟩
        have harith : done + 1 + n = done + (n + 1) := by omega
        rw [harith] at d3
        exact d3
      · intro m h
        obtain ⟨k1, k2, k3, k4⟩ := K m h
        exact ⟨k1, k2, by omega, by omega⟩

/-! ### The invariant at the level of `simulate_fight` -/

theorem simulate_fight_spec (sig : ℚ → ℚ) (stream : ℕ → ℚ) (a b : Fighter) (rounds : ℤ) :
    (∀ v cs, (simulate_fight sig stream a b rounds).result = .Decision v cs →
        (simulate_fight sig stream a b rounds).play_by_play.length = rounds.toNat ∧
        (∃ t, (simulate_fight sig stream a b rounds).totals = some t ∧
          t.fatigue_a = 0 ∧ t.fatigue_b = 0) ∧
        (∃ p1 p2 p3, judgeOk rounds.toNat p1 ∧ judgeOk rounds.toNat p2 ∧
          judgeOk rounds.toNat p3 ∧ cs = [cardStr p1, cardStr p2, cardStr p3])) ∧
    (∀ m, ((simulate_fight sig stream a b rounds).result = .TKO m ∨
           (simulate_fight sig stream a b rounds).result = .KO m) →
        (simulate_fight sig stream a b rounds).totals = none ∧
        (simulate_fight sig stream a b rounds).play_by_play.length = m ∧
        1 ≤ m ∧ m ≤ rounds.toNat) := by
  have hj0 : judgeOk 0 ((0:ℤ), (0:ℤ)) := by
    refine ⟨?_, ?_, ?_, ?_⟩ <;> norm_num
  have h := roundLoop_spec sig
    { stream := stream, a := a, b := b
      spd_a := pct a.speed, acc_a := pct a.accuracy, pow_a := pct a.power
      def_a := pct a.defense, sta_a := pct a.stamina
      spd_b := pct b.speed, acc_b := pct b.accuracy, pow_b := pct b.power
      def_b := pct b.defense, sta_b := pct b.stamina
      ko_threshold_a := ko_threshold (pct a.durability)
      ko_threshold_b := ko_threshold (pct b.durability) }
    (pct_nonneg _) (pct_nonneg _) rounds.toNat 0
    { k := 0, damage_a := 0, damage_b := 0, fatigue_a := 0.0, fatigue_b := 0.0
      kd_total_a := 0, kd_total_b := 0, j1 := (0, 0), j2 := (0, 0), j3 := (0, 0), pbp := [] }
    rfl (by norm_num) (by norm_num) hj0 hj0 hj0
  simp only [Nat.zero_add] at h
  exact h

/-! ### Two fully evaluated runs (sigmoid-independent by `simulate_fight_sig_irrel`)

With the all-zeros stream every hit-chance comparison is a hit and fighter `B0`
(power and accuracy 100) knocks `A0` (durability 100, threshold 300) down on
every landed punch; the damage reaches the one-punch-KO gate in round 1 and the
zero draw then certifies the knockout.  With the all-`4/5` stream every punch
misses and every round is scored 10-10 by every judge. -/

theorem run_ko_props (sig : ℚ → ℚ) :
    (simulate_fight sig str0 A0 B0 1).result = .KO 1 ∧
    (simulate_fight sig str0 A0 B0 1).totals = none ∧
    (simulate_fight sig str0 A0 B0 1).play_by_play.length = 1 := by
  rw [simulate_fight_sig_irrel sigApprox sig str0 A0 B0 1
    (fun i => Or.inl (by norm_num [str0]))]
  refine ⟨?_, ?_, ?_⟩ <;> with_unfolding_all decide

theorem run_draw_eq (sig : ℚ → ℚ) :
    simulate_fight sig str45 A1 B1 2 =
      { result := .Decision "Draw" ["20-20", "20-20", "20-20"]
        winner := none
        loser := none
        totals := some ⟨0, 0, 0, 0, 0, 0⟩
        play_by_play := [.round 1 0 0 0 0 [], .round 2 0 0 0 0 []] } := by
  rw [simulate_fight_sig_irrel sigApprox sig str45 A1 B1 2
    (fun i => Or.inr (by norm_num [str45]))]
  with_unfolding_all decide

/-- Any non-positive round count skips the round loop entirely and produces a
Draw decision with three `"0-0"` cards, an empty play-by-play and zero totals. -/
theorem run_nonpos_rounds (sig : ℚ → ℚ) (stream : ℕ → ℚ) (a b : Fighter) (rounds : ℤ)
    (h : rounds ≤ 0) :
    simulate_fight sig stream a b rounds =
      { result := .Decision "Draw" ["0-0", "0-0", "0-0"]
        winner := none
        loser := none
        totals := some ⟨0, 0, 0, 0, 0, 0⟩
        play_by_play := [] } := by
  have h0 : rounds.toNat = 0 := Int.toNat_of_nonpos h
  simp only [simulate_fight]
  rw [h0]
  with_unfolding_all rfl

/-- Discriminator for the Decision outcome kind. -/
def isDecision : ResultType → Bool
  | .Decision _ _ => true
  | _ => false

/-! ### Claims -/

/-- C1 counterexample: with the all-zeros draw stream, `B0` knocks `A0` out in
round 1 and the returned record has no `totals` field at all, against every
sigmoid (see `run_ko_props`). -/
theorem C1_counterexample :
    (simulate_fight sigApprox str0 A0 B0 1).result = .KO 1 ∧
    (simulate_fight sigApprox str0 A0 B0 1).totals = none :=
  ⟨(run_ko_props sigApprox).1, (run_ko_props sigApprox).2.1⟩

/-- C1 (amended): a result record of `simulate_fight` carries a `totals`
field (with its six entries `damage_to_a`, `damage_to_b`, `kd_suffered_a`,
`kd_suffered_b`, `fatigue_a`, `fatigue_b`) exactly when the outcome kind is
Decision; TKO and KO results omit the `totals` field. -/
theorem C1_totals_iff (sig : ℚ → ℚ) (stream : ℕ → ℚ) (a b : Fighter) (rounds : ℤ) :
    (∃ t, (simulate_fight sig stream a b rounds).totals = some t) ↔
    (∃ v cs, (simulate_fight sig stream a b rounds).result = .Decision v cs) := by
  obtain ⟨D, K⟩ := simulate_fight_spec sig stream a b rounds
  constructor
  · rintro ⟨t, ht⟩
    cases hres : (simulate_fight sig stream a b rounds).result with
    | Decision v cs => exact ⟨v, cs, rfl⟩
    | TKO m =>
      rw [(K m (Or.inl hres)).1] at ht
      exact Option.noConfusion ht
    | KO m =>
      rw [(K m (Or.inr hres)).1] at ht
      exact Option.noConfusion ht
  · rintro ⟨v, cs, h⟩
    obtain ⟨-, ⟨t, ht, -, -⟩, -⟩ := D v cs h
    exact ⟨t, ht⟩

/-- C2 counterexample: the fighter with durability 100 gets threshold 300, the
one with durability 0 gets threshold 650 — higher durability yields a strictly
LOWER stoppage threshold. -/
theorem C2_counterexample :
    ko_threshold (pct 100) = 300 ∧ ko_threshold (pct 0) = 650 ∧
    ¬(ko_threshold (pct 0) ≤ ko_threshold (pct 100)) := by
  refine ⟨?_, ?_, ?_⟩ <;> (unfold ko_threshold pct; norm_num)

/-- C2 (amended): the per-fighter knockout threshold equals
`(1 − durability)·350 + 300` and is monotonically DECREASING in durability:
of two fighters identical except durability, the one with higher durability
has a lower (or equal) stoppage threshold. -/
theorem C2_threshold :
    (∀ d : ℚ, ko_threshold d = (1 - d) * 350 + 300) ∧
    (∀ x y : ℤ, pct x ≤ pct y → ko_threshold (pct y) ≤ ko_threshold (pct x)) := by
  constructor
  · intro d
    unfold ko_threshold
    ring
  · intro x y h
    unfold ko_threshold
    linarith

/-- C2 witness: durabilities 0 and 100 instantiate the monotonicity. -/
theorem C2_witness :
    pct 0 ≤ pct 100 ∧ ko_threshold (pct 100) ≤ ko_threshold (pct 0) :=
  ⟨by unfold pct; norm_num, C2_threshold.2 0 100 (by unfold pct; norm_num)⟩

/-- C3 counterexample: a 1-round bout that ends by KO in round 1 has
play-by-play length equal to the configured round count although the outcome
is not a Decision, refuting the "if and only if" direction. -/
theorem C3_counterexample :
    (simulate_fight sigApprox str0 A0 B0 1).play_by_play.length = (1 : ℤ).toNat ∧
    isDecision (simulate_fight sigApprox str0 A0 B0 1).result = false := by
  refine ⟨(run_ko_props sigApprox).2.2, ?_⟩
  rw [(run_ko_props sigApprox).1]
  rfl

/-- C3 (amended): for rounds ≥ 1 the play-by-play length is at most the round
count; a Decision always has length equal to the round count; but a KO/TKO in
round `m` has length `m`, so a stoppage in the final round also reaches the
full round count. -/
theorem C3_length (sig : ℚ → ℚ) (stream : ℕ → ℚ) (a b : Fighter) (rounds : ℤ)
    (hr : 1 ≤ rounds) :
    (simulate_fight sig stream a b rounds).play_by_play.length ≤ rounds.toNat ∧
    (∀ v cs, (simulate_fight sig stream a b rounds).result = .Decision v cs →
      (simulate_fight sig stream a b rounds).play_by_play.length = rounds.toNat) ∧
    (∀ m, ((simulate_fight sig stream a b rounds).result = .TKO m ∨
           (simulate_fight sig stream a b rounds).result = .KO m) →
      (simulate_fight sig stream a b rounds).play_by_play.length = m ∧
      1 ≤ m ∧ m ≤ rounds.toNat) := by
  obtain ⟨D, K⟩ := simulate_fight_spec sig stream a b rounds
  refine ⟨?_, ?_, ?_⟩
  · cases hres : (simulate_fight sig stream a b rounds).result with
    | Decision v cs => exact (D v cs hres).1.le
    | TKO m =>
      obtain ⟨-, hlen, -, hm⟩ := K m (Or.inl hres)
      rw [hlen]
      exact hm
    | KO m =>
      obtain ⟨-, hlen, -, hm⟩ := K m (Or.inr hres)
      rw [hlen]
      exact hm
  · intro v cs h
    exact (D v cs h).1
  · intro m h
    obtain ⟨-, hlen, h1, hm⟩ := K m h
    exact ⟨hlen, h1, hm⟩

/-- C3 witness: the 1-round KO bout instantiates the length bound. -/
theorem C3_witness :
    (1 : ℤ) ≤ 1 ∧
    (simulate_fight sigApprox str0 A0 B0 1).play_by_play.length ≤ (1 : ℤ).toNat :=
  ⟨le_refl 1, (C3_length sigApprox str0 A0 B0 1 (le_refl 1)).1⟩

/-- C4 counterexample: a 2-round Decision carries the card `"20-20"` — the
hyphen-joined pair of the judge's cumulative totals `(20, 20)` — and 20 lies
outside `[7, 10]`. -/
theorem C4_counterexample :
    (simulate_fight sigApprox str45 A1 B1 2).result =
      .Decision "Draw" ["20-20", "20-20", "20-20"] ∧
    "20-20" = cardStr (20, 20) ∧ ¬((7 : ℤ) ≤ 20 ∧ (20 : ℤ) ≤ 10) := by
  refine ⟨by rw [run_draw_eq], by with_unfolding_all decide, by decide⟩

/-- C4 (amended): every Decision of an `n`-round bout carries exactly 3 card
strings, each of the form `toString x ++ "-" ++ toString y` with both
integers in `[7·n, 10·n]` (cumulative judge totals, not single-round
10-point scores). -/
theorem C4_cards (sig : ℚ → ℚ) (stream : ℕ → ℚ) (a b : Fighter) (rounds : ℤ)
    (v : String) (cs : List String)
    (h : (simulate_fight sig stream a b rounds).result = .Decision v cs) :
    cs.length = 3 ∧
    ∃ p1 p2 p3 : ℤ × ℤ, cs = [cardStr p1, cardStr p2, cardStr p3] ∧
      judgeOk rounds.toNat p1 ∧ judgeOk rounds.toNat p2 ∧ judgeOk rounds.toNat p3 := by
  obtain ⟨D, -⟩ := simulate_fight_spec sig stream a b rounds
  obtain ⟨-, -, p1, p2, p3, j1, j2, j3, hcs⟩ := D v cs h
  exact ⟨by rw [hcs]; rfl, p1, p2, p3, hcs, j1, j2, j3⟩

/-- C4 witness: the 2-round Draw instantiates the card-shape theorem. -/
theorem C4_witness :
    (simulate_fight sigApprox str45 A1 B1 2).result =
      .Decision "Draw" ["20-20", "20-20", "20-20"] ∧
    (["20-20", "20-20", "20-20"] : List String).length = 3 :=
  ⟨by rw [run_draw_eq],
    (C4_cards sigApprox str45 A1 B1 2 "Draw" ["20-20", "20-20", "20-20"]
      (by rw [run_draw_eq])).1⟩

/-- C5 counterexample: fighter A scores a knockdown but loses the raw landed
margin (0 landed against 1); the judge still awards A's opponent 10 points,
above `max 7 (10 − 1) = 9`. -/
theorem C5_counterexample :
    score_round 0 1 1 0 0 = (9, 10) ∧
    ¬((score_round 0 1 1 0 0).2 ≤ max 7 (10 - (1 : ℤ))) := by
  constructor <;> with_unfolding_all decide

/-- C5 (amended): in a round with a knockdown the scorer's opponent is capped
at `max 7 (10 − kd_count)` only when the knockdown scorer does not lose the
base margin (for A: margin not below −0.5; for B: margin not above 0.5 and no
A-knockdown); when the scorer loses the raw margin the opponent's score is
not reduced. -/
theorem C5_floor (la lb ka kb : ℕ) (bias : ℚ) :
    (1 ≤ ka → ¬(((la : ℚ) - (lb : ℚ)) + bias < -0.5) →
      (score_round la lb ka kb bias).2 ≤ max 7 (10 - (ka : ℤ))) ∧
    (1 ≤ kb → ka = 0 → ¬(0.5 < ((la : ℚ) - (lb : ℚ)) + bias) →
      (score_round la lb ka kb bias).1 ≤ max 7 (10 - (kb : ℤ))) := by
  constructor
  · intro hk hm
    unfold score_round
    rcases base_of_not_lt (((la : ℚ) - (lb : ℚ)) + bias) hm with h | h <;> rw [h]
    · exact kd_adjust_b_le ka kb (10, 9) hk (by norm_num) (by norm_num) (by norm_num)
    · exact kd_adjust_b_le ka kb (10, 10) hk (by norm_num) (by norm_num) (by norm_num)
  · intro hk hka hm
    subst hka
    unfold score_round
    rcases base_of_not_gt (((la : ℚ) - (lb : ℚ)) + bias) hm with h | h <;> rw [h]
    · exact kd_adjust_a_le kb (9, 10) hk (by norm_num) (by norm_num) (by norm_num)
    · exact kd_adjust_a_le kb (10, 10) hk (by norm_num) (by norm_num) (by norm_num)

/-- C5 witness: one knockdown on an even round caps the opponent at 9. -/
theorem C5_witness :
    score_round 0 0 1 0 0 = (10, 9) ∧
    (score_round 0 0 1 0 0).2 ≤ max 7 (10 - (1 : ℤ)) :=
  ⟨by with_unfolding_all decide,
    (C5_floor 0 0 1 0 0).1 (le_refl 1) (by norm_num)⟩

/-- C6 counterexample: `rounds = 0` is not rejected — `simulate_fight` returns
an ordinary Decision result (a Draw with three `"0-0"` cards), one of the
three normal outcome kinds, with no distinct error signal. -/
theorem C6_counterexample :
    (simulate_fight sigApprox str0 A0 B0 0).result =
      .Decision "Draw" ["0-0", "0-0", "0-0"] ∧
    (simulate_fight sigApprox str0 A0 B0 0).play_by_play = [] := by
  rw [run_nonpos_rounds sigApprox str0 A0 B0 0 (le_refl 0)]
  exact ⟨rfl, rfl⟩

/-- C6 (amended): a round count ≤ 0 is not rejected and raises no error: the
round loop body never executes and the function returns a normal Decision
result — a Draw with cards `"0-0"`, zero totals and empty play-by-play. -/
theorem C6_nonpos (sig : ℚ → ℚ) (stream : ℕ → ℚ) (a b : Fighter) (rounds : ℤ)
    (h : rounds ≤ 0) :
    simulate_fight sig stream a b rounds =
      { result := .Decision "Draw" ["0-0", "0-0", "0-0"]
        winner := none
        loser := none
        totals := some ⟨0, 0, 0, 0, 0, 0⟩
        play_by_play := [] } :=
  run_nonpos_rounds sig stream a b rounds h

/-- C6 witness: rounds = 0 instantiates the non-rejection theorem. -/
theorem C6_witness :
    (0 : ℤ) ≤ 0 ∧
    simulate_fight sigApprox str0 A0 B0 0 =
      { result := .Decision "Draw" ["0-0", "0-0", "0-0"]
        winner := none
        loser := none
        totals := some ⟨0, 0, 0, 0, 0, 0⟩
        play_by_play := [] } :=
  ⟨le_refl 0, C6_nonpos sigApprox str0 A0 B0 0 (le_refl 0)⟩

/-- C7 counterexample: with both fighters at zero speed and stamina the
attacker-selection probability evaluates to 0, not anywhere near one half. -/
theorem C7_counterexample :
    attProbA 0 0 0 0 0 0 = 0 ∧ ¬((2 : ℚ) / 5 ≤ attProbA 0 0 0 0 0 0) := by
  constructor <;> (unfold attProbA; norm_num)

/-- C7 (amended): with both fighters at zero speed and stamina the epsilon
keeps the denominator of the attacker-selection probability nonzero (no
division by zero), but the probability resolves to 0 — so fighter A is never
selected as attacker (every draw `r ≥ 0` fails `r < 0`), not near-50/50. -/
theorem C7_attprob :
    attProbA 0 0 0 0 0 0 = 0 ∧
    ((0 : ℚ) * (1.0 - 0) + 0 * 0.5) + (0 * (1.0 - 0) + 0 * 0.5) + 0.000000001 ≠ 0 ∧
    (∀ r : ℚ, 0 ≤ r → ¬(r < attProbA 0 0 0 0 0 0)) := by
  have h0 : attProbA 0 0 0 0 0 0 = 0 := by unfold attProbA; norm_num
  refine ⟨h0, by norm_num, ?_⟩
  intro r hr
  rw [h0]
  exact not_lt.mpr hr

/-- C7 witness: the draw 1/2 does not select fighter A. -/
theorem C7_witness :
    (0 : ℚ) ≤ 1 / 2 ∧ ¬((1 : ℚ) / 2 < attProbA 0 0 0 0 0 0) :=
  ⟨by norm_num, C7_attprob.2.2 (1 / 2) (by norm_num)⟩

/-- C8: `simulate_fight` is a pure function of the fighters, the round count
and the seed-determined draw stream: two invocations whose streams agree at
every index produce identical result records. -/
theorem C8_determinism (sig : ℚ → ℚ) (s1 s2 : ℕ → ℚ) (a b : Fighter) (rounds : ℤ)
    (h : ∀ i, s1 i = s2 i) :
    simulate_fight sig s1 a b rounds = simulate_fight sig s2 a b rounds := by
  have hs : s1 = s2 := funext h
  rw [hs]

/-- C8 witness: two runs at the same concrete inputs coincide. -/
theorem C8_witness :
    simulate_fight sigApprox str0 A0 B0 1 = simulate_fight sigApprox str0 A0 B0 1 :=
  C8_determinism sigApprox str0 str0 A0 B0 1 (fun i => rfl)

/-- A judge pair cannot favour both sides at once, so the two card counters
together never exceed the number of judges. -/
theorem countP_pair_le (l : List (ℤ × ℤ)) :
    List.countP (fun x => decide (x.2 < x.1)) l +
    List.countP (fun x => decide (x.1 < x.2)) l ≤ l.length := by
  induction l with
  | nil => simp
  | cons x l ih =>
    simp only [List.countP_cons, List.length_cons]
    by_cases h1 : x.2 < x.1
    · have h2 : ¬(x.1 < x.2) := lt_asymm h1
      simp [h1, h2]
      omega
    · by_cases h2 : x.1 < x.2 <;> simp [h1, h2] <;> omega

/-- C9 counterexample: with two cards for fighter A and one for fighter B the
Decision tail labels the verdict "Split Decision", not "Majority Decision". -/
theorem C9_counterexample :
    (decisionResult A0 B0 stX).result =
      .Decision "Split Decision" ["10-9", "10-9", "9-10"] ∧
    "Split Decision" ≠ "Majority Decision" := by
  constructor
  · with_unfolding_all decide
  · decide

/-- C9 (amended): at Decision time the verdict is classified from the judge
card counts as: winner favoured on all 3 cards → Unanimous Decision; winner on
2 cards with the loser on 1 → SPLIT Decision; winner on 2 cards with the third
card even → Majority Decision; equal card counts (in particular all judges
tied) → Draw with no winner. -/
theorem C9_verdicts (a b : Fighter) (st : St) :
    (List.countP (fun x => decide (x.2 < x.1)) [st.j1, st.j2, st.j3] = 3 →
      (decisionResult a b st).result = .Decision "Unanimous Decision"
        (List.map cardStr [st.j1, st.j2, st.j3])) ∧
    (List.countP (fun x => decide (x.1 < x.2)) [st.j1, st.j2, st.j3] = 3 →
      (decisionResult a b st).result = .Decision "Unanimous Decision"
        (List.map cardStr [st.j1, st.j2, st.j3])) ∧
    (List.countP (fun x => decide (x.2 < x.1)) [st.j1, st.j2, st.j3] = 2 →
      List.countP (fun x => decide (x.1 < x.2)) [st.j1, st.j2, st.j3] = 1 →
      (decisionResult a b st).result = .Decision "Split Decision"
        (List.map cardStr [st.j1, st.j2, st.j3])) ∧
    (List.countP (fun x => decide (x.1 < x.2)) [st.j1, st.j2, st.j3] = 2 →
      List.countP (fun x => decide (x.2 < x.1)) [st.j1, st.j2, st.j3] = 1 →
      (decisionResult a b st).result = .Decision "Split Decision"
        (List.map cardStr [st.j1, st.j2, st.j3])) ∧
    (List.countP (fun x => decide (x.2 < x.1)) [st.j1, st.j2, st.j3] = 2 →
      List.countP (fun x => decide (x.1 < x.2)) [st.j1, st.j2, st.j3] = 0 →
      (decisionResult a b st).result = .Decision "Majority Decision"
        (List.map cardStr [st.j1, st.j2, st.j3])) ∧
    (List.countP (fun x => decide (x.1 < x.2)) [st.j1, st.j2, st.j3] = 2 →
      List.countP (fun x => decide (x.2 < x.1)) [st.j1, st.j2, st.j3] = 0 →
      (decisionResult a b st).result = .Decision "Majority Decision"
        (List.map cardStr [st.j1, st.j2, st.j3])) ∧
    (List.countP (fun x => decide (x.2 < x.1)) [st.j1, st.j2, st.j3] =
        List.countP (fun x => decide (x.1 < x.2)) [st.j1, st.j2, st.j3] →
      (decisionResult a b st).result = .Decision "Draw"
        (List.map cardStr [st.j1, st.j2, st.j3]) ∧
      (decisionResult a b st).winner = none ∧ (decisionResult a b st).loser = none) := by
  have hle := countP_pair_le [st.j1, st.j2, st.j3]
  have hlen : ([st.j1, st.j2, st.j3] : List (ℤ × ℤ)).length = 3 := rfl
  rw [hlen] at hle
  refine ⟨?_, ?_, ?_, ?_, ?_, ?_, ?_⟩
  · intro hA
    have hB : List.countP (fun x => decide (x.1 < x.2)) [st.j1, st.j2, st.j3] = 0 := by omega
    simp only [decisionResult]
    rw [hA, hB]
    norm_num
  · intro hB
    have hA : List.countP (fun x => decide (x.2 < x.1)) [st.j1, st.j2, st.j3] = 0 := by omega
    simp only [decisionResult]
    rw [hA, hB]
    norm_num
  · intro hA hB
    simp only [decisionResult]
    rw [hA, hB]
    norm_num
  · intro hB hA
    simp only [decisionResult]
    rw [hA, hB]
    norm_num
  · intro hA hB
    simp only [decisionResult]
    rw [hA, hB]
    norm_num
  · intro hB hA
    simp only [decisionResult]
    rw [hA, hB]
    norm_num
  · intro h
    simp only [decisionResult]
    rw [h]
    simp [lt_self_iff_false]

/-- C9 witness: the 2-1 card configuration instantiates the Split case. -/
theorem C9_witness :
    (decisionResult A0 B0 stX).result =
      .Decision "Split Decision" (List.map cardStr [stX.j1, stX.j2, stX.j3]) :=
  (C9_verdicts A0 B0 stX).2.2.1 (by decide) (by decide)

/-- C10: fatigue is initialised to 0 and never increased by any operation (the
between-round update only subtracts a nonnegative recovery and clamps at 0),
so the fatigue entering every round is 0 — every fatigue-dependent term runs
at fatigue 0 — and the reported `fatigue_a`/`fatigue_b` totals are always 0. -/
theorem C10_fatigue :
    (∀ (sig : ℚ → ℚ) (stream : ℕ → ℚ) (a b : Fighter) (rounds : ℤ) (t : Totals),
      (simulate_fight sig stream a b rounds).totals = some t →
      t.fatigue_a = 0 ∧ t.fatigue_b = 0) ∧
    (∀ (sig : ℚ → ℚ) (c : Ctx) (rnd : ℕ) (st st2 : St),
      0 ≤ c.sta_a → 0 ≤ c.sta_b → st.fatigue_a = 0 → st.fatigue_b = 0 →
      runRound sig c rnd st = .next st2 →
      st2.fatigue_a = 0 ∧ st2.fatigue_b = 0) := by
  constructor
  · intro sig stream a b rounds t ht
    obtain ⟨D, K⟩ := simulate_fight_spec sig stream a b rounds
    cases hres : (simulate_fight sig stream a b rounds).result with
    | Decision v cs =>
      obtain ⟨-, ⟨t2, ht2, f1, f2⟩, -⟩ := D v cs hres
      rw [ht] at ht2
      injection ht2 with h
      rw [h]
      exact ⟨f1, f2⟩
    | TKO m =>
      rw [(K m (Or.inl hres)).1] at ht
      exact Option.noConfusion ht
    | KO m =>
      rw [(K m (Or.inr hres)).1] at ht
      exact Option.noConfusion ht
  · intro sig c rnd st st2 hsa hsb hfa hfb h
    obtain ⟨-, f1, f2, -⟩ := runRound_next_spec sig c rnd st st2 hsa hsb h
    exact ⟨f1 hfa, f2 hfb⟩

/-- C10 witness: the 2-round Draw reports zero fatigue totals. -/
theorem C10_witness :
    (simulate_fight sigApprox str45 A1 B1 2).totals = some (Totals.mk 0 0 0 0 0 0) ∧
    (Totals.mk 0 0 0 0 0 0).fatigue_a = 0 ∧ (Totals.mk 0 0 0 0 0 0).fatigue_b = 0 :=
  ⟨by rw [run_draw_eq],
    C10_fatigue.1 sigApprox str45 A1 B1 2 ⟨0, 0, 0, 0, 0, 0⟩ (by rw [run_draw_eq])⟩
